import Mathlib

/-!
Shallow embedding of the synthetic-data generators of the
`semantic-views-phantom-sec` repository (scripts under `src/scripts/`),
together with theorems settling the frozen claims about them.

Modelling conventions:
* Dates are day numbers (`ℕ` for the subscription simulator, `ℤ` for the
  adoption/activity generators, matching the direction of the arithmetic
  in each script); the `MM/DD/YYYY` string formatting is out-of-scope glue.
* Python floats are modelled as exact rationals (`ℚ`); `int(x)` is
  truncation toward zero (`pyInt`).
* Randomness is modelled as nondeterminism: every call of
  `random.randint`/`random.random`/`random.choices`/`random.uniform`
  receives its own draw from an oracle, and claims are settled for every
  possible draw.  `random.randint(a, b)` with draw `d` yields
  `a + d % (b - a + 1)`, which realises exactly the inclusive range
  `[a, b]`; `random.choices(xs, weights)` with every weight positive
  yields `xs[d % len(xs)]`, which realises exactly the support `xs`;
  `random.uniform(a, b)` is an oracle-supplied rational (claims below
  never depend on its range); `random.random() < p` for `0 < p < 1` is an
  oracle-supplied boolean.
-/

namespace PhantomSec

/-- Customer segment (`segment` field). -/
inductive Segment where
  | startup
  | mid_market
  | enterprise
deriving DecidableEq

/-- Customer compliance maturity (`compliance_maturity` field). -/
inductive Maturity where
  | beginner
  | intermediate
  | advanced
deriving DecidableEq

/-- Customer industry (`industry` field); `other` stands for any industry
without an entry in the `industry_multipliers` table. -/
inductive Industry where
  | healthtech
  | fintech
  | ecommerce
  | government_contractors
  | saas
  | other
deriving DecidableEq

/-- Product tier of a subscription event. -/
inductive Tier where
  | starter
  | professional
  | enterprise
  | enterprise_plus
deriving DecidableEq

/-- Billing period of a subscription event. -/
inductive Billing where
  | monthly
  | quarterly
  | annual
  | upfront
deriving DecidableEq

/-- Subscription event type. -/
inductive EventType where
  | new
  | renewal
  | expansion
  | downgrade
  | churn
deriving DecidableEq

/-- Sales channel of a subscription event. -/
inductive Channel where
  | self_serve
  | inside_sales
  | field_sales
  | partner
deriving DecidableEq

/-- Payment method of a subscription event. -/
inductive Payment where
  | credit_card
  | ach
  | wire_transfer
  | invoice
deriving DecidableEq

/-- The 8 framework names of the fixed catalog. -/
inductive FrameworkName where
  | SOC2_Type_I
  | SOC2_Type_II
  | ISO27001
  | HIPAA
  | GDPR
  | PCI_DSS
  | FedRAMP
  | NIST_CSF
deriving DecidableEq

/-- Customer record (`DIM_CUSTOMERS` row), restricted to the fields the
generators under scrutiny read.  `signup_date` is a day number. -/
structure Customer where
  customer_id : ℕ
  segment : Segment
  industry : Industry
  compliance_maturity : Maturity
  signup_date : ℕ
deriving DecidableEq

/-- Compliance framework record (`DIM_COMPLIANCE_FRAMEWORKS` row),
restricted to the numeric/boolean fields the generators read. -/
structure Framework where
  framework_id : ℕ
  framework_name : FrameworkName
  complexity_score : ℤ
  avg_completion_days : ℕ
  automation_percentage : ℕ
  annual_audit_required : Bool
  certification_cost_usd : ℕ
deriving DecidableEq

/-- The static 8-framework catalog from `generate_compliance_frameworks`
(`generate_frameworks.py`). -/
def compliance_frameworks : List Framework :=
  [ { framework_id := 1, framework_name := .SOC2_Type_I, complexity_score := 4,
      avg_completion_days := 90, automation_percentage := 75,
      annual_audit_required := false, certification_cost_usd := 25000 },
    { framework_id := 2, framework_name := .SOC2_Type_II, complexity_score := 7,
      avg_completion_days := 180, automation_percentage := 65,
      annual_audit_required := true, certification_cost_usd := 45000 },
    { framework_id := 3, framework_name := .ISO27001, complexity_score := 8,
      avg_completion_days := 240, automation_percentage := 60,
      annual_audit_required := true, certification_cost_usd := 35000 },
    { framework_id := 4, framework_name := .HIPAA, complexity_score := 6,
      avg_completion_days := 150, automation_percentage := 70,
      annual_audit_required := false, certification_cost_usd := 15000 },
    { framework_id := 5, framework_name := .GDPR, complexity_score := 7,
      avg_completion_days := 120, automation_percentage := 55,
      annual_audit_required := false, certification_cost_usd := 20000 },
    { framework_id := 6, framework_name := .PCI_DSS, complexity_score := 5,
      avg_completion_days := 90, automation_percentage := 80,
      annual_audit_required := true, certification_cost_usd := 30000 },
    { framework_id := 7, framework_name := .FedRAMP, complexity_score := 9,
      avg_completion_days := 365, automation_percentage := 45,
      annual_audit_required := true, certification_cost_usd := 150000 },
    { framework_id := 8, framework_name := .NIST_CSF, complexity_score := 6,
      avg_completion_days := 180, automation_percentage := 70,
      annual_audit_required := false, certification_cost_usd := 25000 } ]

/-! ### Random primitives -/

/-- `random.randint(lo, hi)` on naturals: inclusive range `[lo, hi]`,
realised from a draw `d`. -/
def randint (lo hi d : ℕ) : ℕ := lo + d % (hi - lo + 1)

/-- `random.randint(lo, hi)` on integers: inclusive range `[lo, hi]`,
realised from a draw `d`. -/
def randintZ (lo hi : ℤ) (d : ℕ) : ℤ := lo + ((d % (hi - lo + 1).toNat : ℕ) : ℤ)

/-- `random.choices(default :: rest, weights)` with all weights positive:
any element of the list can be returned; draw `d` selects the index.
(The default is the list head at every call site, so `getD` never falls
back to it.) -/
def choiceD {α : Type} (a : α) (l : List α) (d : ℕ) : α := l.getD (d % l.length) a

/-- Python `int()` applied to a rational: truncation toward zero. -/
def pyInt (q : ℚ) : ℤ := if 0 ≤ q then ⌊q⌋ else ⌈q⌉

theorem randint_le {lo hi d : ℕ} (h : lo ≤ hi) :
    lo ≤ randint lo hi d ∧ randint lo hi d ≤ hi := by
  unfold randint
  have hm : d % (hi - lo + 1) < hi - lo + 1 := Nat.mod_lt _ (by omega)
  omega

theorem randintZ_le {lo hi : ℤ} {d : ℕ} (h : lo ≤ hi) :
    lo ≤ randintZ lo hi d ∧ randintZ lo hi d ≤ hi := by
  unfold randintZ
  have hnn : (0 : ℤ) ≤ hi - lo + 1 := by omega
  have hcast : (((hi - lo + 1).toNat : ℤ)) = hi - lo + 1 := Int.toNat_of_nonneg hnn
  have hpos : 0 < (hi - lo + 1).toNat := by omega
  have hm : d % (hi - lo + 1).toNat < (hi - lo + 1).toNat := Nat.mod_lt _ hpos
  have hmz : ((d % (hi - lo + 1).toNat : ℕ) : ℤ) < ((hi - lo + 1).toNat : ℤ) :=
    Int.ofNat_lt.mpr hm
  omega

theorem choiceD_mem {α : Type} (a : α) (l : List α) (d : ℕ) :
    choiceD a l d ∈ a :: l := by
  unfold choiceD
  rcases l with _ | ⟨x, xs⟩
  · simp
  · have h : d % (x :: xs).length < (x :: xs).length :=
      Nat.mod_lt _ (by simp)
    rw [List.getD_eq_getElem _ _ h]
    exact List.mem_cons_of_mem _ (List.getElem_mem h)

theorem pyInt_nonneg {q : ℚ} (h : 0 ≤ q) : 0 ≤ pyInt q := by
  unfold pyInt
  rw [if_pos h]
  exact_mod_cast Int.floor_nonneg.mpr h

theorem pyInt_le_self {t : ℤ} {q : ℚ} (hq : 0 ≤ q) (h : q ≤ (t : ℚ)) : pyInt q ≤ t := by
  unfold pyInt
  rw [if_pos hq]
  have h1 : ⌊q⌋ ≤ ⌊(t : ℚ)⌋ := Int.floor_le_floor h
  simpa using h1

/-! ### Subscription events (`generate_subscription_events.py`) -/

/-- `get_product_tier_for_segment(segment, is_new)`.  The draw `b` stands
for `random.random() < 0.7` (startup) / `< 0.8` (mid_market/enterprise,
new); the draw `d` selects from `random.choices` in the non-new branches.
Note the Python `or` short-circuits: for a startup with `is_new=True` the
random call never runs. -/
def get_product_tier_for_segment (segment : Segment) (is_new : Bool)
    (b : Bool) (d : ℕ) : Tier :=
  match segment with
  | .startup => if is_new || b then .starter else .professional
  | .mid_market =>
      if is_new then (if b then .professional else .enterprise)
      else choiceD .professional [.professional, .enterprise] d
  | .enterprise =>
      if is_new then (if b then .enterprise else .enterprise_plus)
      else choiceD .enterprise [.enterprise, .enterprise_plus] d

/-- The per-tier monthly base draw of `get_mrr_for_tier`
(`base_monthly_amounts[tier]`). -/
def base_monthly_amount (tier : Tier) (d : ℕ) : ℕ :=
  match tier with
  | .starter => randint 200 800 d
  | .professional => randint 800 3000 d
  | .enterprise => randint 3000 15000 d
  | .enterprise_plus => randint 15000 50000 d

/-- `get_mrr_for_tier(tier, billing_period)`: convert the drawn monthly
base amount to the billing-period amount. -/
def get_mrr_for_tier (tier : Tier) (billing_period : Billing) (d : ℕ) : ℕ :=
  let monthly_amount := base_monthly_amount tier d
  match billing_period with
  | .monthly => monthly_amount
  | .quarterly => monthly_amount * 3
  | .annual => monthly_amount * 12
  | .upfront => monthly_amount * 24

/-- `get_billing_period_for_segment(segment)` (weights all positive, so
the support is the whole list). -/
def get_billing_period_for_segment (segment : Segment) (d : ℕ) : Billing :=
  match segment with
  | .startup => choiceD .monthly [.monthly, .quarterly, .annual] d
  | .mid_market => choiceD .monthly [.monthly, .quarterly, .annual] d
  | .enterprise => choiceD .quarterly [.quarterly, .annual, .upfront] d

/-- `get_realistic_contract_length(segment)`. -/
def get_realistic_contract_length (segment : Segment) (d : ℕ) : ℕ :=
  match segment with
  | .startup => choiceD 12 [12, 24] d
  | .mid_market => choiceD 12 [12, 24] d
  | .enterprise => choiceD 12 [12, 24, 36] d

/-- `get_sales_channel(segment, product_tier)` (the tier argument is
unused in the source as well). -/
def get_sales_channel (segment : Segment) (d : ℕ) : Channel :=
  match segment with
  | .startup => choiceD .self_serve [.self_serve, .inside_sales] d
  | .mid_market => choiceD .self_serve [.self_serve, .inside_sales, .field_sales] d
  | .enterprise => choiceD .inside_sales [.inside_sales, .field_sales, .partner] d

/-- `get_payment_method(segment)`. -/
def get_payment_method (segment : Segment) (d : ℕ) : Payment :=
  match segment with
  | .startup => choiceD .credit_card [.credit_card, .ach] d
  | .mid_market => choiceD .credit_card [.credit_card, .ach, .invoice] d
  | .enterprise => choiceD .credit_card [.credit_card, .ach, .wire_transfer, .invoice] d

/-- Draws consumed by one call of `calculate_discount`: the four
`random.uniform` values and the two `random.random() < p` coins. -/
structure DiscountDraws where
  periodUniform : ℚ
  multiYearUniform : ℚ
  promoCoin : Bool
  promoUniform : ℚ
  volumeCoin : Bool
  volumeUniform : ℚ

/-- `calculate_discount(billing_period, contract_length, segment,
event_type)`: sum the applicable components, cap at 5. -/
def calculate_discount (billing_period : Billing) (contract_length : ℕ)
    (segment : Segment) (event_type : EventType) (dd : DiscountDraws) : ℚ :=
  let d1 : ℚ :=
    if billing_period = .annual ∨ billing_period = .upfront then dd.periodUniform
    else if billing_period = .quarterly then dd.periodUniform
    else 0
  let d2 : ℚ := if 24 ≤ contract_length then dd.multiYearUniform else 0
  let d3 : ℚ := if event_type = .new ∧ dd.promoCoin then dd.promoUniform else 0
  let d4 : ℚ := if segment = .enterprise ∧ dd.volumeCoin then dd.volumeUniform else 0
  min (d1 + d2 + d3 + d4) 5

/-- One generated subscription event (`FACT_SUBSCRIPTION_EVENTS` row). -/
structure SubEvent where
  event_id : ℕ
  customer_id : ℕ
  event_date : ℕ
  event_type : EventType
  product_tier : Tier
  mrr_amount : ℤ
  billing_period : Billing
  contract_length_months : ℕ
  discount_percentage : ℚ
  sales_channel : Channel
  payment_method : Payment
deriving DecidableEq

/-- Oracle supplying every random draw of one
`generate_subscription_lifecycle` run.  Per-iteration draws are indexed
by the iteration counter. -/
structure SubOracle where
  willChurnCoin : Bool
  newOffsetDraw : ℕ
  billingDraw : ℕ
  tierCoin : Bool
  tierDraw : ℕ
  contractDraw : ℕ
  mrrDraw : ℕ
  newDiscount : DiscountDraws
  channelDraw : ℕ
  payDraw : ℕ
  churnCoin : ℕ → Bool
  etypeDraw : ℕ → ℕ
  loopContractDraw : ℕ → ℕ
  loopTierCoin : ℕ → Bool
  loopTierDraw : ℕ → ℕ
  loopMrrDraw : ℕ → ℕ
  downgradeUniform : ℕ → ℚ
  renewalUniform : ℕ → ℚ
  loopDiscount : ℕ → DiscountDraws

/-- The `random.choices` over `event_type_weights` at a contract renewal:
both weight tables (base and advanced mid_market/enterprise boost) keep
all three weights positive over the same keys, so the support is
`[renewal, expansion, downgrade]` either way. -/
def pick_event_type (d : ℕ) : EventType :=
  choiceD .renewal [.renewal, .expansion, .downgrade] d

/-- `tier_hierarchy.index`. -/
def tierIndex : Tier → ℕ
  | .starter => 0
  | .professional => 1
  | .enterprise => 2
  | .enterprise_plus => 3

/-- `tier_hierarchy[i]` (the source only indexes with `min(idx+1, 3)`,
always in bounds). -/
def tierOfIndex : ℕ → Tier
  | 0 => .starter
  | 1 => .professional
  | 2 => .enterprise
  | _ => .enterprise_plus

/-- New tier and new MRR at a contract renewal, per event type
(the `if event_type == expansion / elif downgrade / else` block). -/
def next_tier_mrr (segment : Segment) (event_type : EventType) (mrr : ℤ)
    (tier : Tier) (billing : Billing) (o : SubOracle) (i : ℕ) : Tier × ℤ :=
  match event_type with
  | .expansion =>
      let nt0 := get_product_tier_for_segment segment false (o.loopTierCoin i) (o.loopTierDraw i)
      let nt := if tierIndex nt0 ≤ tierIndex tier
                then tierOfIndex (min (tierIndex tier + 1) 3) else nt0
      (nt, (get_mrr_for_tier nt billing (o.loopMrrDraw i) : ℤ))
  | .downgrade => (tier, pyInt ((mrr : ℚ) * o.downgradeUniform i))
  | _ => (tier, pyInt ((mrr : ℚ) * o.renewalUniform i))

/-- The `while last_event_date < current_date` loop of
`generate_subscription_lifecycle`.  `fuel` only bounds the number of
iterations: each iteration advances `last` by `cl * 30 ≥ 30` days, so
with `fuel = today + 1 - last` the fuel never runs out before the loop's
own exit conditions fire (`lifecycleLoop_fuel_irrelevant` below). -/
def lifecycleLoop (cust : Customer) (today : ℕ) (willChurn : Bool) (o : SubOracle) :
    (fuel i counter last : ℕ) → (mrr : ℤ) → (tier : Tier) → (billing : Billing) →
    (cl : ℕ) → (ch : Channel) → (pm : Payment) → List SubEvent × ℕ
  | 0, _, counter, _, _, _, _, _, _, _ => ([], counter)
  | fuel + 1, i, counter, last, mrr, tier, billing, cl, ch, pm =>
    if last < today then
      let days_to_next := if billing = .monthly then cl * 30 else cl * 30
      let next := last + days_to_next
      if today < next then ([], counter)
      else if willChurn ∧ 365 < next - cust.signup_date ∧ o.churnCoin i then
        ([{ event_id := counter, customer_id := cust.customer_id, event_date := next,
            event_type := .churn, product_tier := tier, mrr_amount := 0,
            billing_period := billing, contract_length_months := 0,
            discount_percentage := 0, sales_channel := ch, payment_method := pm }],
         counter + 1)
      else
        let etype := pick_event_type (o.etypeDraw i)
        let newCl := get_realistic_contract_length cust.segment (o.loopContractDraw i)
        let tm := next_tier_mrr cust.segment etype mrr tier billing o i
        let ev : SubEvent :=
          { event_id := counter, customer_id := cust.customer_id, event_date := next,
            event_type := etype, product_tier := tm.1, mrr_amount := tm.2,
            billing_period := billing, contract_length_months := newCl,
            discount_percentage :=
              calculate_discount billing newCl cust.segment etype (o.loopDiscount i),
            sales_channel := ch, payment_method := pm }
        let r := lifecycleLoop cust today willChurn o fuel (i + 1) (counter + 1)
                   next tm.2 tm.1 billing newCl ch pm
        (ev :: r.1, r.2)
    else ([], counter)

/-- `generate_subscription_lifecycle(customer, event_id_counter)`:
emit the `new` event, then run the renewal/expansion/downgrade/churn
loop.  `today` is `datetime.now()` as a day number. -/
def generate_subscription_lifecycle (cust : Customer) (today : ℕ)
    (o : SubOracle) (event_id_counter : ℕ) : List SubEvent × ℕ :=
  let will_churn := o.willChurnCoin
  let new_event_date := cust.signup_date + randint 0 30 o.newOffsetDraw
  let billing_period := get_billing_period_for_segment cust.segment o.billingDraw
  let product_tier := get_product_tier_for_segment cust.segment true o.tierCoin o.tierDraw
  let contract_length := get_realistic_contract_length cust.segment o.contractDraw
  let current_event : SubEvent :=
    { event_id := event_id_counter, customer_id := cust.customer_id,
      event_date := new_event_date, event_type := .new,
      product_tier := product_tier,
      mrr_amount := (get_mrr_for_tier product_tier billing_period o.mrrDraw : ℤ),
      billing_period := billing_period, contract_length_months := contract_length,
      discount_percentage :=
        calculate_discount billing_period contract_length cust.segment .new o.newDiscount,
      sales_channel := get_sales_channel cust.segment o.channelDraw,
      payment_method := get_payment_method cust.segment o.payDraw }
  let r := lifecycleLoop cust today will_churn o (today + 1 - new_event_date) 0
             (event_id_counter + 1) new_event_date current_event.mrr_amount
             product_tier billing_period contract_length
             current_event.sales_channel current_event.payment_method
  (current_event :: r.1, r.2)

/-! ### Framework adoptions (`generate_framework_adoptions.py`) -/

/-- The `base_rates` table of `get_framework_adoption_probability`
(all 8 names are keys; the `.get(..., 0.10)` default is unreachable). -/
def base_rates : FrameworkName → ℚ
  | .SOC2_Type_I => 0.95
  | .SOC2_Type_II => 0.70
  | .ISO27001 => 0.40
  | .HIPAA => 0.05
  | .GDPR => 0.35
  | .PCI_DSS => 0.15
  | .FedRAMP => 0.02
  | .NIST_CSF => 0.75

/-- The `industry_multipliers` override table: `some q` when the
`(industry, framework)` pair has an entry. -/
def industry_multipliers : Industry → FrameworkName → Option ℚ
  | .healthtech, .HIPAA => some 0.95
  | .healthtech, .SOC2_Type_I => some 0.98
  | .healthtech, .SOC2_Type_II => some 0.85
  | .healthtech, .GDPR => some 0.45
  | .fintech, .PCI_DSS => some 0.90
  | .fintech, .SOC2_Type_I => some 0.98
  | .fintech, .SOC2_Type_II => some 0.85
  | .fintech, .FedRAMP => some 0.15
  | .ecommerce, .PCI_DSS => some 0.90
  | .ecommerce, .GDPR => some 0.50
  | .ecommerce, .SOC2_Type_I => some 0.95
  | .government_contractors, .FedRAMP => some 0.80
  | .government_contractors, .NIST_CSF => some 0.95
  | .government_contractors, .SOC2_Type_I => some 0.90
  | .saas, .SOC2_Type_I => some 0.98
  | .saas, .SOC2_Type_II => some 0.80
  | .saas, .ISO27001 => some 0.55
  | .saas, .GDPR => some 0.45
  | _, _ => none

/-- The probability after the base rate and the industry-specific
override, before the segment and maturity adjustments (lines 84-90 of
`get_framework_adoption_probability`). -/
def industry_adjusted_probability (industry : Industry) (framework_name : FrameworkName) : ℚ :=
  match industry_multipliers industry framework_name with
  | some q => q
  | none => base_rates framework_name

/-- `get_framework_adoption_probability(customer, framework_name)`. -/
def get_framework_adoption_probability (c : Customer) (framework_name : FrameworkName) : ℚ :=
  let p0 := industry_adjusted_probability c.industry framework_name
  let p1 :=
    match c.segment with
    | .enterprise => min (p0 * 1.2) 0.95
    | .startup =>
        if framework_name ∉ [FrameworkName.SOC2_Type_I, FrameworkName.NIST_CSF]
        then p0 * 0.8 else p0
    | .mid_market => p0
  let p2 :=
    match c.compliance_maturity with
    | .advanced => min (p1 * 1.15) 0.95
    | .beginner => if framework_name ≠ .SOC2_Type_I then p1 * 0.7 else p1
    | .intermediate => p1
  min p2 0.95

/-- `calculate_audit_score(customer, framework)` as a function of the
customer's maturity, the framework's complexity score and the
`random.randint` draw.  (`int()` on `min_score`/`max_score` no-ops:
both are already integers.) -/
def calculate_audit_score (maturity : Maturity) (complexity : ℤ) (d : ℕ) : ℤ :=
  let base_range : ℤ × ℤ :=
    match maturity with
    | .advanced => (85, 98)
    | .intermediate => (75, 90)
    | .beginner => (65, 85)
  let complexity_penalty := (complexity - 5) * 2
  let min_score := max (base_range.1 - complexity_penalty) 50
  let max_score := max (base_range.2 - complexity_penalty) (min_score + 10)
  randintZ min_score max_score d

/-- `generate_adoption_dates(customer, framework)`: start/completion day
numbers from the signup-offset draw `d1` and the variance draw `d2`. -/
def generate_adoption_dates (c : Customer) (f : Framework) (d1 d2 : ℕ) : ℤ × ℤ :=
  let start_date := (c.signup_date : ℤ) + randintZ 0 365 d1
  let base_completion_days : ℤ := (f.avg_completion_days : ℤ)
  let completion_days : ℤ :=
    match c.compliance_maturity with
    | .advanced => pyInt ((base_completion_days : ℚ) * 0.8)
    | .beginner => pyInt ((base_completion_days : ℚ) * 1.3)
    | .intermediate => base_completion_days
  let variance := randintZ (-30) 30 d2
  let completion_days := max (completion_days + variance) 30
  (start_date, start_date + completion_days)

/-! ### Compliance activities (`generate_compliance_activities.py`) -/

/-- The four phases of the activity-date mixture. -/
inductive Phase where
  | start
  | middle
  | completion
  | post
deriving DecidableEq

/-- Oracle for one `generate_activity_dates` call: per-activity phase
choice and offset draw. -/
structure ActOracle where
  phaseDraw : ℕ → ℕ
  offsetDraw : ℕ → ℕ

/-- The per-phase `days_offset` computation inside the loop of
`generate_activity_dates` (`total_days` and `completion_offset` are the
loop-invariant quantities `(end_date - start_date).days` and
`(completion_date - start_date).days`). -/
def phase_offset (phase : Phase) (total_days completion_offset : ℤ) (dr : ℕ) : ℤ :=
  match phase with
  | .start =>
      randintZ 0 (max 1 (pyInt ((total_days : ℚ) * 0.2))) dr
  | .middle =>
      let start_offset := pyInt ((total_days : ℚ) * 0.2)
      let end_offset := pyInt ((total_days : ℚ) * 0.6)
      let end_offset := max (start_offset + 1) end_offset
      randintZ start_offset end_offset dr
  | .completion =>
      let start_offset := pyInt ((total_days : ℚ) * 0.6)
      let end_offset := max (start_offset + 1) completion_offset
      randintZ start_offset end_offset dr
  | .post =>
      let end_offset := max (completion_offset + 1) total_days
      randintZ completion_offset end_offset dr

/-- `generate_activity_dates(adoption, num_activities)`: sample
`num_activities` day numbers over `[start_date, completion_date + 90]`
from the four-phase mixture, then `sorted(dates)`. -/
def generate_activity_dates (start_date completion_date : ℤ)
    (num_activities : ℕ) (o : ActOracle) : List ℤ :=
  let end_date := completion_date + 90
  let total_days := end_date - start_date
  let dates := (List.range num_activities).map (fun k =>
    let phase := choiceD Phase.start [.start, .middle, .completion, .post] (o.phaseDraw k)
    start_date + phase_offset phase total_days (completion_date - start_date) (o.offsetDraw k))
  dates.mergeSort

/-! ### MRR reconciliation (`quality_checks.py`) -/

/-- `calculate_annualized_amount(mrr_amount, billing_period)` from the
validator: normalize a billing amount to its 12-month equivalent. -/
def calculate_annualized_amount (mrr_amount : ℤ) (billing_period : Billing) : ℚ :=
  match billing_period with
  | .monthly => (mrr_amount : ℚ) * 12
  | .quarterly => (mrr_amount : ℚ) * 4
  | .annual => (mrr_amount : ℚ)
  | .upfront => (mrr_amount : ℚ) / 2

/-! ### Helper lemmas -/

theorem get_realistic_contract_length_mem (segment : Segment) (d : ℕ) :
    get_realistic_contract_length segment d ∈ ([12, 24, 36] : List ℕ) := by
  cases segment
  · have h := choiceD_mem 12 [12, 24] d
    unfold get_realistic_contract_length
    simp only [List.mem_cons, List.not_mem_nil, or_false] at h ⊢
    omega
  · have h := choiceD_mem 12 [12, 24] d
    unfold get_realistic_contract_length
    simp only [List.mem_cons, List.not_mem_nil, or_false] at h ⊢
    omega
  · have h := choiceD_mem 12 [12, 24, 36] d
    unfold get_realistic_contract_length
    simp only [List.mem_cons, List.not_mem_nil, or_false] at h ⊢
    omega

theorem get_realistic_contract_length_ge (segment : Segment) (d : ℕ) :
    12 ≤ get_realistic_contract_length segment d := by
  have h := get_realistic_contract_length_mem segment d
  simp only [List.mem_cons, List.not_mem_nil, or_false] at h
  omega

theorem get_realistic_contract_length_pos (segment : Segment) (d : ℕ) :
    0 < get_realistic_contract_length segment d :=
  lt_of_lt_of_le (by norm_num) (get_realistic_contract_length_ge segment d)

theorem pick_event_type_ne (d : ℕ) :
    pick_event_type d ≠ .new ∧ pick_event_type d ≠ .churn := by
  have h := choiceD_mem EventType.renewal [.renewal, .expansion, .downgrade] d
  unfold pick_event_type
  simp only [List.mem_cons, List.not_mem_nil, or_false] at h
  rcases h with h | h | h | h <;> rw [h] <;> exact ⟨by decide, by decide⟩

/-! ### Claim theorems -/

/-- C9: for a startup customer, the product tier for a `new` subscription
event is always `starter`, for every random draw: the `or` condition in
`get_product_tier_for_segment` short-circuits when `is_new` is true, so
the `professional` alternative is unreachable. -/
theorem startup_new_tier_always_starter (b : Bool) (d : ℕ) :
    get_product_tier_for_segment .startup true b d = .starter := rfl

/-- C4: for every tier and every billing period, annualizing the
`mrr_amount` produced by `get_mrr_for_tier` with the validator's
`calculate_annualized_amount` yields exactly 12 times the drawn monthly
base amount, independently of the billing period. -/
theorem annualized_mrr_eq_twelve_times_base (tier : Tier) (bp : Billing) (d : ℕ) :
    calculate_annualized_amount (get_mrr_for_tier tier bp d) bp
      = 12 * (base_monthly_amount tier d : ℚ) := by
  cases bp <;>
    simp only [calculate_annualized_amount, get_mrr_for_tier] <;>
    push_cast <;> ring

/-- C8: a healthtech customer's HIPAA adoption probability before the
segment and maturity adjustments is 0.95, a saas customer's is 0.05, and
the final probability returned by `get_framework_adoption_probability`
never exceeds 0.95 for any customer and framework. -/
theorem hipaa_probability_and_cap :
    industry_adjusted_probability .healthtech .HIPAA = 0.95 ∧
    industry_adjusted_probability .saas .HIPAA = 0.05 ∧
    ∀ (c : Customer) (f : FrameworkName),
      get_framework_adoption_probability c f ≤ 0.95 := by
  refine ⟨by norm_num [industry_adjusted_probability, industry_multipliers],
    by norm_num [industry_adjusted_probability, industry_multipliers, base_rates],
    fun c f => ?_⟩
  unfold get_framework_adoption_probability
  exact min_le_right _ _

theorem calculate_audit_score_bounds (m : Maturity) (c : ℤ) (d : ℕ)
    (h4 : 4 ≤ c) (h9 : c ≤ 9) :
    50 ≤ calculate_audit_score m c d ∧ calculate_audit_score m c d ≤ 100 := by
  obtain ⟨lo, hi, hlo, hhi, hscore⟩ :
      ∃ lo hi : ℤ, lo ≤ 85 ∧ hi ≤ 98 ∧
        calculate_audit_score m c d
          = randintZ (max (lo - (c - 5) * 2) 50)
              (max (hi - (c - 5) * 2) (max (lo - (c - 5) * 2) 50 + 10)) d := by
    cases m
    · exact ⟨65, 85, by norm_num, by norm_num, rfl⟩
    · exact ⟨75, 90, by norm_num, by norm_num, rfl⟩
    · exact ⟨85, 98, by norm_num, by norm_num, rfl⟩
  rw [hscore]
  set p := (c - 5) * 2 with hp
  set mn := max (lo - p) 50 with hmn
  set mx := max (hi - p) (mn + 10) with hmx
  have h50 : (50 : ℤ) ≤ mn := le_max_right _ _
  have hle : mn ≤ mx := le_trans (by omega) (le_max_right _ _)
  obtain ⟨h1, h2⟩ := randintZ_le (d := d) hle
  have hmn87 : mn ≤ 87 := max_le (by omega) (by norm_num)
  have hmx100 : mx ≤ 100 := max_le (by omega) (by omega)
  exact ⟨by omega, by omega⟩

/-- C1 counterexample: the claim that `audit_score ∈ [50, 98]` for all
catalog maturity/complexity combinations is false: for an advanced
customer and the complexity-4 framework SOC2_Type_I the score range is
`[87, 100]`, and draw 13 yields 100. -/
theorem audit_score_range_counterexample :
    ¬ (∀ (m : Maturity), ∀ fw ∈ compliance_frameworks, ∀ d : ℕ,
        50 ≤ calculate_audit_score m fw.complexity_score d ∧
        calculate_audit_score m fw.complexity_score d ≤ 98) := by
  intro h
  have h1 := h .advanced
    { framework_id := 1, framework_name := .SOC2_Type_I, complexity_score := 4,
      avg_completion_days := 90, automation_percentage := 75,
      annual_audit_required := false, certification_cost_usd := 25000 }
    (by simp [compliance_frameworks]) 13
  exact absurd h1.2 (by decide)

/-- C1 amended: for every maturity, every framework of the 8-entry
catalog and every random draw, the audit score computed by
`calculate_audit_score` lies in the range `[50, 100]` (the upper bound 98
of the original claim is raised to 100, which is attained). -/
theorem audit_score_range_amended (m : Maturity) (fw : Framework)
    (hfw : fw ∈ compliance_frameworks) (d : ℕ) :
    50 ≤ calculate_audit_score m fw.complexity_score d ∧
    calculate_audit_score m fw.complexity_score d ≤ 100 := by
  have hc : 4 ≤ fw.complexity_score ∧ fw.complexity_score ≤ 9 := by
    fin_cases hfw <;> exact ⟨by decide, by decide⟩
  exact calculate_audit_score_bounds m fw.complexity_score d hc.1 hc.2

/-- Witness for the amended C1 at maturity `advanced`, framework
SOC2_Type_I, draw 13 (the draw that refutes the original bound). -/
theorem audit_score_range_amended_witness :
    50 ≤ calculate_audit_score .advanced 4 13 ∧
    calculate_audit_score .advanced 4 13 ≤ 100 := by
  have h := audit_score_range_amended .advanced
    { framework_id := 1, framework_name := .SOC2_Type_I, complexity_score := 4,
      avg_completion_days := 90, automation_percentage := 75,
      annual_audit_required := false, certification_cost_usd := 25000 }
    (by simp [compliance_frameworks]) 13
  simpa using h

/-- C5: for an adoption of a framework with `avg_completion_days = 90` by
a customer of advanced compliance maturity, the completion delay equals
`int(90 * 0.8) = 72` plus a uniform noise term in `[-30, 30]`, floored at
30; hence it lies in `[42, 102]`, and the completion date is the start
date plus that delay. -/
theorem advanced_completion_days (c : Customer) (f : Framework) (d1 d2 : ℕ)
    (hm : c.compliance_maturity = .advanced) (hf : f.avg_completion_days = 90) :
    pyInt ((90 : ℚ) * 0.8) = 72 ∧
    ∃ v : ℤ, -30 ≤ v ∧ v ≤ 30 ∧
      (generate_adoption_dates c f d1 d2).2
        = (generate_adoption_dates c f d1 d2).1 + max (pyInt ((90 : ℚ) * 0.8) + v) 30 ∧
      42 ≤ (generate_adoption_dates c f d1 d2).2 - (generate_adoption_dates c f d1 d2).1 ∧
      (generate_adoption_dates c f d1 d2).2 - (generate_adoption_dates c f d1 d2).1 ≤ 102 := by
  have h72 : pyInt ((90 : ℚ) * 0.8) = 72 := by norm_num [pyInt]
  refine ⟨h72, randintZ (-30) 30 d2, ?_, ?_, ?_, ?_, ?_⟩ <;>
    obtain ⟨hv1, hv2⟩ := @randintZ_le (-30 : ℤ) 30 d2 (by norm_num)
  · exact hv1
  · exact hv2
  · simp only [generate_adoption_dates, hm, hf, Nat.cast_ofNat, Int.cast_ofNat, h72]
  · simp only [generate_adoption_dates, hm, hf, Nat.cast_ofNat, Int.cast_ofNat, h72]
    have := le_max_left (72 + randintZ (-30) 30 d2) (30 : ℤ)
    omega
  · simp only [generate_adoption_dates, hm, hf, Nat.cast_ofNat, Int.cast_ofNat, h72]
    have h1 := max_le (a := 72 + randintZ (-30) 30 d2) (b := (30 : ℤ)) (c := 102)
      (by omega) (by norm_num)
    omega

/-- Concrete customer fixture: startup / saas / advanced, signup day 0. -/
def cust_adv : Customer :=
  { customer_id := 1, segment := .startup, industry := .saas,
    compliance_maturity := .advanced, signup_date := 0 }

/-- Concrete framework fixture: the SOC2_Type_I catalog entry
(`avg_completion_days = 90`). -/
def fw_soc2_i : Framework :=
  { framework_id := 1, framework_name := .SOC2_Type_I, complexity_score := 4,
    avg_completion_days := 90, automation_percentage := 75,
    annual_audit_required := false, certification_cost_usd := 25000 }

/-- Witness for C5 at a concrete customer, framework and draws. -/
theorem advanced_completion_days_witness :
    pyInt ((90 : ℚ) * 0.8) = 72 ∧
    ∃ v : ℤ, -30 ≤ v ∧ v ≤ 30 ∧
      (generate_adoption_dates cust_adv fw_soc2_i 0 0).2
        = (generate_adoption_dates cust_adv fw_soc2_i 0 0).1
            + max (pyInt ((90 : ℚ) * 0.8) + v) 30 ∧
      42 ≤ (generate_adoption_dates cust_adv fw_soc2_i 0 0).2
            - (generate_adoption_dates cust_adv fw_soc2_i 0 0).1 ∧
      (generate_adoption_dates cust_adv fw_soc2_i 0 0).2
            - (generate_adoption_dates cust_adv fw_soc2_i 0 0).1 ≤ 102 :=
  advanced_completion_days cust_adv fw_soc2_i 0 0 rfl rfl

/-! ### Invariants of the subscription-lifecycle loop -/

/-- Events emitted by the loop are never `new`, and all carry an event
date strictly later than the incoming `last_event_date`; moreover their
dates are strictly increasing. -/
theorem lifecycleLoop_dates (cust : Customer) (today : ℕ) (wc : Bool) (o : SubOracle) :
    ∀ (fuel i counter last : ℕ) (mrr : ℤ) (tier : Tier) (billing : Billing)
      (cl : ℕ) (ch : Channel) (pm : Payment), 0 < cl →
      (∀ e ∈ (lifecycleLoop cust today wc o fuel i counter last mrr tier billing cl ch pm).1,
          e.event_type ≠ .new ∧ last < e.event_date) ∧
      List.Chain' (fun a b => a.event_date < b.event_date)
        (lifecycleLoop cust today wc o fuel i counter last mrr tier billing cl ch pm).1 := by
  intro fuel
  induction fuel with
  | zero =>
      intro i counter last mrr tier billing cl ch pm hcl
      simp [lifecycleLoop]
  | succ f IH =>
      intro i counter last mrr tier billing cl ch pm hcl
      simp only [lifecycleLoop, ite_self]
      split_ifs with h1 h2 h3
      · simp
      · refine ⟨?_, ?_⟩
        · intro e he
          simp only [List.mem_singleton] at he
          subst he
          refine ⟨by simp, ?_⟩
          show last < last + cl * 30
          omega
        · exact List.chain'_singleton _
      · obtain ⟨IH1, IH2⟩ := IH (i + 1) (counter + 1) (last + cl * 30)
          (next_tier_mrr cust.segment (pick_event_type (o.etypeDraw i)) mrr tier billing o i).2
          (next_tier_mrr cust.segment (pick_event_type (o.etypeDraw i)) mrr tier billing o i).1
          billing (get_realistic_contract_length cust.segment (o.loopContractDraw i)) ch pm
          (get_realistic_contract_length_pos _ _)
        refine ⟨?_, ?_⟩
        · intro e he
          rcases List.mem_cons.mp he with rfl | he
          · refine ⟨(pick_event_type_ne _).1, ?_⟩
            show last < last + cl * 30
            omega
          · obtain ⟨h5, h6⟩ := IH1 e he
            exact ⟨h5, by omega⟩
        · refine List.chain'_cons'.mpr ⟨?_, IH2⟩
          intro b hb
          exact (IH1 b (List.mem_of_mem_head? hb)).2
      · simp

/-- Field invariants of loop-emitted events: a churn event zeroes
`mrr_amount`, `contract_length_months` and `discount_percentage`; any
other event carries a freshly drawn contract length from {12, 24, 36}. -/
theorem lifecycleLoop_fields (cust : Customer) (today : ℕ) (wc : Bool) (o : SubOracle) :
    ∀ (fuel i counter last : ℕ) (mrr : ℤ) (tier : Tier) (billing : Billing)
      (cl : ℕ) (ch : Channel) (pm : Payment),
      ∀ e ∈ (lifecycleLoop cust today wc o fuel i counter last mrr tier billing cl ch pm).1,
        (e.event_type = .churn → e.mrr_amount = 0 ∧ e.contract_length_months = 0 ∧
          e.discount_percentage = 0) ∧
        (e.event_type ≠ .churn → e.contract_length_months ∈ ([12, 24, 36] : List ℕ)) := by
  intro fuel
  induction fuel with
  | zero =>
      intro i counter last mrr tier billing cl ch pm e he
      simp [lifecycleLoop] at he
  | succ f IH =>
      intro i counter last mrr tier billing cl ch pm e he
      simp only [lifecycleLoop, ite_self] at he
      split_ifs at he with h1 h2 h3
      · simp at he
      · simp only [List.mem_singleton] at he
        subst he
        exact ⟨fun _ => ⟨rfl, rfl, rfl⟩, fun hne => absurd rfl hne⟩
      · rcases List.mem_cons.mp he with rfl | he
        · refine ⟨fun hch => absurd hch (pick_event_type_ne _).2, fun _ => ?_⟩
          exact get_realistic_contract_length_mem _ _
        · exact IH _ _ _ _ _ _ _ _ _ e he
      · simp at he

/-- Every loop-emitted event except possibly the last one is not a churn
event (a churn event terminates the loop immediately). -/
theorem lifecycleLoop_churn_last (cust : Customer) (today : ℕ) (wc : Bool) (o : SubOracle) :
    ∀ (fuel i counter last : ℕ) (mrr : ℤ) (tier : Tier) (billing : Billing)
      (cl : ℕ) (ch : Channel) (pm : Payment),
      ∀ e ∈ (lifecycleLoop cust today wc o fuel i counter last mrr tier billing
          cl ch pm).1.dropLast,
        e.event_type ≠ .churn := by
  intro fuel
  induction fuel with
  | zero =>
      intro i counter last mrr tier billing cl ch pm e he
      simp [lifecycleLoop] at he
  | succ f IH =>
      intro i counter last mrr tier billing cl ch pm e he
      simp only [lifecycleLoop, ite_self] at he
      split_ifs at he with h1 h2 h3
      · simp at he
      · simp at he
      · rcases hr : (lifecycleLoop cust today wc o f (i + 1) (counter + 1) (last + cl * 30)
            (next_tier_mrr cust.segment (pick_event_type (o.etypeDraw i)) mrr tier billing o i).2
            (next_tier_mrr cust.segment (pick_event_type (o.etypeDraw i)) mrr tier billing o i).1
            billing (get_realistic_contract_length cust.segment (o.loopContractDraw i))
            ch pm).1 with _ | ⟨y, ys⟩
        · rw [hr] at he
          simp at he
        · rw [hr, List.dropLast_cons₂] at he
          rcases List.mem_cons.mp he with rfl | he
          · exact (pick_event_type_ne _).2
          · have h5 := IH (i + 1) (counter + 1) (last + cl * 30)
              (next_tier_mrr cust.segment (pick_event_type (o.etypeDraw i)) mrr tier billing o i).2
              (next_tier_mrr cust.segment (pick_event_type (o.etypeDraw i)) mrr tier billing o i).1
              billing (get_realistic_contract_length cust.segment (o.loopContractDraw i))
              ch pm e
            rw [hr] at h5
            exact h5 he
      · simp at he

/-- Adjacency relation of C10: a churn event carries forward the product
tier and billing period of the event preceding it. -/
def carries_churn_state (a b : SubEvent) : Prop :=
  b.event_type = .churn →
    b.product_tier = a.product_tier ∧ b.billing_period = a.billing_period

/-- A churn event emitted by the loop repeats the current product tier
and billing period, which are exactly the tier and billing period
recorded on the event preceding it. -/
theorem lifecycleLoop_churn_carry (cust : Customer) (today : ℕ) (wc : Bool) (o : SubOracle) :
    ∀ (fuel i counter last : ℕ) (mrr : ℤ) (tier : Tier) (billing : Billing)
      (cl : ℕ) (ch : Channel) (pm : Payment) (prev : SubEvent),
      prev.product_tier = tier → prev.billing_period = billing →
      List.Chain' carries_churn_state
        (prev :: (lifecycleLoop cust today wc o fuel i counter last mrr tier billing
          cl ch pm).1) := by
  intro fuel
  induction fuel with
  | zero =>
      intro i counter last mrr tier billing cl ch pm prev hpt hpb
      simp [lifecycleLoop]
  | succ f IH =>
      intro i counter last mrr tier billing cl ch pm prev hpt hpb
      simp only [lifecycleLoop, ite_self]
      split_ifs with h1 h2 h3
      · simp
      · refine List.chain'_cons.mpr ⟨?_, List.chain'_singleton _⟩
        intro _
        exact ⟨hpt.symm, hpb.symm⟩
      · refine List.chain'_cons.mpr ⟨?_, ?_⟩
        · intro hch
          exact absurd hch (pick_event_type_ne _).2
        · exact IH (i + 1) (counter + 1) (last + cl * 30)
            (next_tier_mrr cust.segment (pick_event_type (o.etypeDraw i)) mrr tier billing o i).2
            (next_tier_mrr cust.segment (pick_event_type (o.etypeDraw i)) mrr tier billing o i).1
            billing (get_realistic_contract_length cust.segment (o.loopContractDraw i))
            ch pm _ rfl rfl
      · simp

/-- The fuel bound of `lifecycleLoop` is irrelevant as soon as it
dominates `today + 1 - last`: each iteration advances `last` by at least
30 days, so the loop always exits through one of the source's own break
conditions first.  This justifies running the loop with fuel
`today + 1 - new_event_date` in `generate_subscription_lifecycle`. -/
theorem lifecycleLoop_fuel_irrelevant (cust : Customer) (today : ℕ) (wc : Bool) (o : SubOracle) :
    ∀ (fuel1 fuel2 i counter last : ℕ) (mrr : ℤ) (tier : Tier) (billing : Billing)
      (cl : ℕ) (ch : Channel) (pm : Payment), 0 < cl →
      today + 1 - last ≤ fuel1 → today + 1 - last ≤ fuel2 →
      lifecycleLoop cust today wc o fuel1 i counter last mrr tier billing cl ch pm
        = lifecycleLoop cust today wc o fuel2 i counter last mrr tier billing cl ch pm := by
  intro fuel1
  induction fuel1 with
  | zero =>
      intro fuel2 i counter last mrr tier billing cl ch pm hcl hf1 hf2
      have hlt : ¬ last < today := by omega
      cases fuel2 with
      | zero => rfl
      | succ g => simp [lifecycleLoop, hlt]
  | succ f IH =>
      intro fuel2 i counter last mrr tier billing cl ch pm hcl hf1 hf2
      cases fuel2 with
      | zero =>
          have hlt : ¬ last < today := by omega
          simp [lifecycleLoop, hlt]
      | succ g =>
          by_cases hlt : last < today
          · simp only [lifecycleLoop, ite_self, if_pos hlt]
            by_cases hnext : today < last + cl * 30
            · simp [hnext]
            · simp only [if_neg hnext]
              by_cases hch : wc = true ∧ 365 < last + cl * 30 - cust.signup_date ∧
                  o.churnCoin i = true
              · simp [hch]
              · simp only [if_neg hch]
                have hrec := IH g (i + 1) (counter + 1) (last + cl * 30)
                  (next_tier_mrr cust.segment (pick_event_type (o.etypeDraw i))
                    mrr tier billing o i).2
                  (next_tier_mrr cust.segment (pick_event_type (o.etypeDraw i))
                    mrr tier billing o i).1
                  billing (get_realistic_contract_length cust.segment (o.loopContractDraw i))
                  ch pm (get_realistic_contract_length_pos _ _) (by omega) (by omega)
                rw [hrec]
          · simp [lifecycleLoop, hlt]

/-- Helper: prepending a non-churn event preserves "no churn outside the
last position". -/
theorem dropLast_cons_no_churn {ev : SubEvent} {l : List SubEvent}
    (hev : ev.event_type ≠ .churn) (hl : ∀ e ∈ l.dropLast, e.event_type ≠ .churn) :
    ∀ e ∈ (ev :: l).dropLast, e.event_type ≠ .churn := by
  intro e he
  cases l with
  | nil => simp at he
  | cons y ys =>
      rw [List.dropLast_cons₂] at he
      rcases List.mem_cons.mp he with rfl | he
      · exact hev
      · exact hl e he

/-- C2: every generated subscription-event sequence is nonempty, starts
with a `new` event, contains no other `new` event, has churn events only
in the final position (hence at most one churn, always last), and has
strictly increasing event dates. -/
theorem subscription_lifecycle_invariants (cust : Customer) (today : ℕ)
    (o : SubOracle) (counter : ℕ) :
    (generate_subscription_lifecycle cust today o counter).1 ≠ [] ∧
    (∀ e ∈ (generate_subscription_lifecycle cust today o counter).1.head?,
        e.event_type = .new) ∧
    (∀ e ∈ (generate_subscription_lifecycle cust today o counter).1.tail,
        e.event_type ≠ .new) ∧
    (∀ e ∈ (generate_subscription_lifecycle cust today o counter).1.dropLast,
        e.event_type ≠ .churn) ∧
    List.Chain' (fun a b => a.event_date < b.event_date)
      (generate_subscription_lifecycle cust today o counter).1 := by
  simp only [generate_subscription_lifecycle]
  refine ⟨List.cons_ne_nil _ _, ?_, ?_, ?_, ?_⟩
  · intro e he
    simp only [List.head?_cons, Option.mem_def, Option.some.injEq] at he
    subst he
    rfl
  · intro e he
    simp only [List.tail_cons] at he
    exact ((lifecycleLoop_dates cust today _ o _ _ _ _ _ _ _ _ _ _
      (get_realistic_contract_length_pos _ _)).1 e he).1
  · refine dropLast_cons_no_churn (by simp) ?_
    intro e he
    exact lifecycleLoop_churn_last cust today _ o _ _ _ _ _ _ _ _ _ _ e he
  · refine List.chain'_cons'.mpr ⟨?_, (lifecycleLoop_dates cust today _ o _ _ _ _ _ _ _ _ _ _
      (get_realistic_contract_length_pos _ _)).2⟩
    intro b hb
    exact ((lifecycleLoop_dates cust today _ o _ _ _ _ _ _ _ _ _ _
      (get_realistic_contract_length_pos _ _)).1 b (List.mem_of_mem_head? hb)).2

/-- C7: every non-churn subscription event carries a contract length
drawn from {12, 24, 36} months, hence at least 12 months. -/
theorem contract_length_at_least_twelve (cust : Customer) (today : ℕ)
    (o : SubOracle) (counter : ℕ) :
    ∀ e ∈ (generate_subscription_lifecycle cust today o counter).1,
      e.event_type ≠ .churn →
      e.contract_length_months ∈ ([12, 24, 36] : List ℕ) ∧
        12 ≤ e.contract_length_months := by
  intro e he hne
  simp only [generate_subscription_lifecycle] at he
  rcases List.mem_cons.mp he with rfl | he
  · exact ⟨get_realistic_contract_length_mem _ _, get_realistic_contract_length_ge _ _⟩
  · have h := lifecycleLoop_fields cust today _ o _ _ _ _ _ _ _ _ _ _ e he
    have h12 := h.2 hne
    refine ⟨h12, ?_⟩
    simp only [List.mem_cons, List.not_mem_nil, or_false] at h12
    omega

/-- C10: every churn event has `mrr_amount = 0`,
`contract_length_months = 0` and `discount_percentage = 0`, and carries
forward the product tier and billing period of the preceding event. -/
theorem churn_event_resets_and_carries (cust : Customer) (today : ℕ)
    (o : SubOracle) (counter : ℕ) :
    (∀ e ∈ (generate_subscription_lifecycle cust today o counter).1,
        e.event_type = .churn → e.mrr_amount = 0 ∧ e.contract_length_months = 0 ∧
          e.discount_percentage = 0) ∧
    List.Chain' carries_churn_state
      (generate_subscription_lifecycle cust today o counter).1 := by
  constructor
  · intro e he hch
    simp only [generate_subscription_lifecycle] at he
    rcases List.mem_cons.mp he with rfl | he
    · exact absurd hch (by simp)
    · exact (lifecycleLoop_fields cust today _ o _ _ _ _ _ _ _ _ _ _ e he).1 hch
  · simp only [generate_subscription_lifecycle]
    exact lifecycleLoop_churn_carry cust today _ o _ _ _ _ _ _ _ _ _ _ _ rfl rfl

/-- Day number of 01/15/2021, counted from 01/01/2020 (366 + 14). -/
def jan15_2021 : ℕ := 380

/-- Day number of 02/14/2021, counted from 01/01/2020; equals
`jan15_2021 + 30`. -/
def feb14_2021 : ℕ := 410

/-- C3: a startup customer of beginner compliance maturity signing up on
01/15/2021 receives as first event a `new` subscription event dated
between 01/15/2021 and 02/14/2021 inclusive, with product tier in
{starter, professional} and contract length in {12, 24}, for every
random draw. -/
theorem startup_beginner_new_event_scenario (cust : Customer) (today : ℕ)
    (o : SubOracle) (counter : ℕ)
    (hs : cust.segment = .startup) (hm : cust.compliance_maturity = .beginner)
    (hd : cust.signup_date = jan15_2021) :
    ∃ e rest, (generate_subscription_lifecycle cust today o counter).1 = e :: rest ∧
      e.event_type = .new ∧
      jan15_2021 ≤ e.event_date ∧ e.event_date ≤ feb14_2021 ∧
      e.product_tier ∈ ([.starter, .professional] : List Tier) ∧
      e.contract_length_months ∈ ([12, 24] : List ℕ) := by
  obtain ⟨h0, h30⟩ := @randint_le 0 30 o.newOffsetDraw (by norm_num)
  refine ⟨_, _, rfl, rfl, ?_, ?_, ?_, ?_⟩
  · show jan15_2021 ≤ cust.signup_date + randint 0 30 o.newOffsetDraw
    rw [hd]
    omega
  · show cust.signup_date + randint 0 30 o.newOffsetDraw ≤ feb14_2021
    rw [hd]
    simp only [jan15_2021, feb14_2021]
    omega
  · show get_product_tier_for_segment cust.segment true o.tierCoin o.tierDraw
      ∈ ([.starter, .professional] : List Tier)
    rw [hs]
    exact List.mem_cons_self _ _
  · show get_realistic_contract_length cust.segment o.contractDraw ∈ ([12, 24] : List ℕ)
    rw [hs]
    have h := choiceD_mem 12 [12, 24] o.contractDraw
    simp only [get_realistic_contract_length]
    simp only [List.mem_cons, List.not_mem_nil, or_false] at h ⊢
    omega

/-! ### Concrete fixtures and witnesses for the subscription claims -/

/-- All-zero discount draws. -/
def discount_draws_zero : DiscountDraws :=
  { periodUniform := 0, multiYearUniform := 0, promoCoin := false,
    promoUniform := 0, volumeCoin := false, volumeUniform := 0 }

/-- Concrete oracle: all draws zero, churn flag and churn coin set. -/
def sub_oracle_churn : SubOracle :=
  { willChurnCoin := true, newOffsetDraw := 0, billingDraw := 0, tierCoin := false,
    tierDraw := 0, contractDraw := 0, mrrDraw := 0,
    newDiscount := discount_draws_zero, channelDraw := 0, payDraw := 0,
    churnCoin := fun _ => true, etypeDraw := fun _ => 0,
    loopContractDraw := fun _ => 0, loopTierCoin := fun _ => false,
    loopTierDraw := fun _ => 0, loopMrrDraw := fun _ => 0,
    downgradeUniform := fun _ => 0, renewalUniform := fun _ => 0,
    loopDiscount := fun _ => discount_draws_zero }

/-- Concrete startup/beginner customer with signup day 0. -/
def cust_startup : Customer :=
  { customer_id := 1, segment := .startup, industry := .saas,
    compliance_maturity := .beginner, signup_date := 0 }

/-- Concrete startup/beginner customer signing up on 01/15/2021. -/
def cust_jan : Customer :=
  { customer_id := 1, segment := .startup, industry := .saas,
    compliance_maturity := .beginner, signup_date := jan15_2021 }

/-- The `new` event generated for `cust_startup` under `sub_oracle_churn`
(the discount field carries the source expression, which evaluates to 0:
see `new_event_discount_eval`). -/
def new_event_w : SubEvent :=
  { event_id := 1, customer_id := 1, event_date := 0, event_type := .new,
    product_tier := .starter, mrr_amount := 200, billing_period := .monthly,
    contract_length_months := 12,
    discount_percentage := calculate_discount .monthly 12 .startup .new discount_draws_zero,
    sales_channel := .self_serve, payment_method := .credit_card }

/-- The all-zero discount draws indeed produce a zero discount. -/
theorem new_event_discount_eval :
    calculate_discount .monthly 12 .startup .new discount_draws_zero = 0 := by
  norm_num [calculate_discount, discount_draws_zero]

/-- The churn event generated for `cust_startup` under `sub_oracle_churn`
at day 720. -/
def churn_event_w : SubEvent :=
  { event_id := 3, customer_id := 1, event_date := 720, event_type := .churn,
    product_tier := .starter, mrr_amount := 0, billing_period := .monthly,
    contract_length_months := 0, discount_percentage := 0,
    sales_channel := .self_serve, payment_method := .credit_card }

/-- Witness for C2 at a concrete run producing `[new, renewal, churn]`. -/
theorem subscription_lifecycle_invariants_witness :
    (churn_event_w ∈ (generate_subscription_lifecycle cust_startup 1000
        sub_oracle_churn 1).1.tail ∧ churn_event_w.event_type ≠ .new) ∧
    (new_event_w ∈ (generate_subscription_lifecycle cust_startup 1000
        sub_oracle_churn 1).1.dropLast ∧ new_event_w.event_type ≠ .churn) :=
  ⟨⟨List.mem_cons_of_mem _ (List.mem_cons_self _ _),
    (subscription_lifecycle_invariants cust_startup 1000 sub_oracle_churn 1).2.2.1
      churn_event_w (List.mem_cons_of_mem _ (List.mem_cons_self _ _))⟩,
   ⟨List.mem_cons_self _ _,
    (subscription_lifecycle_invariants cust_startup 1000 sub_oracle_churn 1).2.2.2.1
      new_event_w (List.mem_cons_self _ _)⟩⟩

/-- Witness for C7 at the concrete `new` event of the run above. -/
theorem contract_length_at_least_twelve_witness :
    (new_event_w ∈ (generate_subscription_lifecycle cust_startup 1000
        sub_oracle_churn 1).1 ∧ new_event_w.event_type ≠ .churn) ∧
    (new_event_w.contract_length_months ∈ ([12, 24, 36] : List ℕ) ∧
      12 ≤ new_event_w.contract_length_months) :=
  ⟨⟨List.mem_cons_self _ _, by decide⟩,
   contract_length_at_least_twelve cust_startup 1000 sub_oracle_churn 1
     new_event_w (List.mem_cons_self _ _) (by decide)⟩

/-- Witness for C10 at the concrete churn event of the run above. -/
theorem churn_event_resets_and_carries_witness :
    (churn_event_w ∈ (generate_subscription_lifecycle cust_startup 1000
        sub_oracle_churn 1).1 ∧ churn_event_w.event_type = .churn) ∧
    (churn_event_w.mrr_amount = 0 ∧ churn_event_w.contract_length_months = 0 ∧
      churn_event_w.discount_percentage = 0) :=
  ⟨⟨List.mem_cons_of_mem _ (List.mem_cons_of_mem _ (List.mem_cons_self _ _)), by decide⟩,
   (churn_event_resets_and_carries cust_startup 1000 sub_oracle_churn 1).1
     churn_event_w
     (List.mem_cons_of_mem _ (List.mem_cons_of_mem _ (List.mem_cons_self _ _)))
     (by decide)⟩

/-- Witness for C3 at the concrete customer `cust_jan`. -/
theorem startup_beginner_new_event_scenario_witness :
    ∃ e rest, (generate_subscription_lifecycle cust_jan 0 sub_oracle_churn 1).1 = e :: rest ∧
      e.event_type = .new ∧
      jan15_2021 ≤ e.event_date ∧ e.event_date ≤ feb14_2021 ∧
      e.product_tier ∈ ([.starter, .professional] : List Tier) ∧
      e.contract_length_months ∈ ([12, 24] : List ℕ) :=
  startup_beginner_new_event_scenario cust_jan 0 sub_oracle_churn 1 rfl rfl rfl

/-! ### Adoption / activity temporal invariants (C6) -/

theorem add_max_sub_ge (s q : ℤ) : 30 ≤ (s + max q 30) - s := by
  have := le_max_right q (30 : ℤ)
  omega

/-- Every adoption's completion date is at least 30 days after its start
date (the `max(..., 30)` floor in `generate_adoption_dates`). -/
theorem generate_adoption_dates_gap (c : Customer) (f : Framework) (d1 d2 : ℕ) :
    30 ≤ (generate_adoption_dates c f d1 d2).2 - (generate_adoption_dates c f d1 d2).1 := by
  cases hm : c.compliance_maturity <;>
    simp only [generate_adoption_dates, hm] <;>
    exact add_max_sub_ge _ _

/-- Bounds for the per-phase offset: whenever the completion offset is
nonnegative, 90 days short of `total_days`, and `total_days ≥ 120`, the
drawn offset lies in `[0, total_days]` for every phase and draw. -/
theorem phase_offset_bounds (phase : Phase) (td co : ℤ) (dr : ℕ)
    (hco0 : 0 ≤ co) (hco : co + 90 = td) :
    0 ≤ phase_offset phase td co dr ∧ phase_offset phase td co dr ≤ td := by
  have htd : (90 : ℤ) ≤ td := by omega
  have htdQ : (0 : ℚ) ≤ (td : ℚ) := by exact_mod_cast (by omega : (0 : ℤ) ≤ td)
  have htdQ90 : (90 : ℚ) ≤ (td : ℚ) := by exact_mod_cast htd
  have h2nn : (0 : ℚ) ≤ (td : ℚ) * 0.2 := by nlinarith
  have h6nn : (0 : ℚ) ≤ (td : ℚ) * 0.6 := by nlinarith
  have hp2nn : 0 ≤ pyInt ((td : ℚ) * 0.2) := pyInt_nonneg h2nn
  have hp6nn : 0 ≤ pyInt ((td : ℚ) * 0.6) := pyInt_nonneg h6nn
  have hp2td : pyInt ((td : ℚ) * 0.2) ≤ td - 1 := by
    refine pyInt_le_self h2nn ?_
    push_cast
    nlinarith
  have hp6td : pyInt ((td : ℚ) * 0.6) ≤ td - 1 := by
    refine pyInt_le_self h6nn ?_
    push_cast
    nlinarith
  cases phase
  · simp only [phase_offset]
    have hhi : (0 : ℤ) ≤ max 1 (pyInt ((td : ℚ) * 0.2)) :=
      le_trans zero_le_one (le_max_left _ _)
    obtain ⟨h1, h2⟩ := randintZ_le (d := dr) hhi
    refine ⟨h1, h2.trans (max_le (by omega) (by omega))⟩
  · simp only [phase_offset]
    have hle : pyInt ((td : ℚ) * 0.2)
        ≤ max (pyInt ((td : ℚ) * 0.2) + 1) (pyInt ((td : ℚ) * 0.6)) :=
      le_trans (by omega) (le_max_left _ _)
    obtain ⟨h1, h2⟩ := randintZ_le (d := dr) hle
    refine ⟨le_trans hp2nn h1, h2.trans (max_le (by omega) (by omega))⟩
  · simp only [phase_offset]
    have hle : pyInt ((td : ℚ) * 0.6) ≤ max (pyInt ((td : ℚ) * 0.6) + 1) co :=
      le_trans (by omega) (le_max_left _ _)
    obtain ⟨h1, h2⟩ := randintZ_le (d := dr) hle
    refine ⟨le_trans hp6nn h1, h2.trans (max_le (by omega) (by omega))⟩
  · simp only [phase_offset]
    have hle : co ≤ max (co + 1) td := le_trans (by omega) (le_max_left _ _)
    obtain ⟨h1, h2⟩ := randintZ_le (d := dr) hle
    refine ⟨le_trans hco0 h1, h2.trans (max_le (by omega) le_rfl)⟩

/-- Every activity date lies in `[start_date, completion_date + 90]`
whenever the adoption timeline is at least 30 days long. -/
theorem generate_activity_dates_bounds (s cp : ℤ) (hgap : 30 ≤ cp - s)
    (n : ℕ) (o : ActOracle) :
    ∀ t ∈ generate_activity_dates s cp n o, s ≤ t ∧ t ≤ cp + 90 := by
  intro t ht
  simp only [generate_activity_dates] at ht
  rw [(List.mergeSort_perm _ _).mem_iff] at ht
  obtain ⟨k, hk, rfl⟩ := List.mem_map.mp ht
  obtain ⟨h1, h2⟩ := phase_offset_bounds
    (choiceD Phase.start [.start, .middle, .completion, .post] (o.phaseDraw k))
    (cp + 90 - s) (cp - s) (o.offsetDraw k) (by omega) (by omega)
  omega

/-- C6: for every adoption, completion is strictly later than start, all
activity dates generated for the adoption lie within
`[start_date, completion_date + 90]`, and the returned date list is
sorted ascending. -/
theorem adoption_activity_date_invariants (c : Customer) (f : Framework)
    (d1 d2 n : ℕ) (o : ActOracle) :
    (generate_adoption_dates c f d1 d2).1 < (generate_adoption_dates c f d1 d2).2 ∧
    (∀ t ∈ generate_activity_dates (generate_adoption_dates c f d1 d2).1
        (generate_adoption_dates c f d1 d2).2 n o,
      (generate_adoption_dates c f d1 d2).1 ≤ t ∧
        t ≤ (generate_adoption_dates c f d1 d2).2 + 90) ∧
    List.Sorted (· ≤ ·) (generate_activity_dates (generate_adoption_dates c f d1 d2).1
        (generate_adoption_dates c f d1 d2).2 n o) := by
  have hgap := generate_adoption_dates_gap c f d1 d2
  refine ⟨by omega, generate_activity_dates_bounds _ _ hgap n o, ?_⟩
  simp only [generate_activity_dates]
  exact List.sorted_mergeSort' _

/-- All-zero activity oracle. -/
def act_oracle_zero : ActOracle := { phaseDraw := fun _ => 0, offsetDraw := fun _ => 0 }

/-- Witness for C6: for `cust_adv` × SOC2_Type_I with all-zero draws, day
0 is a generated activity date and it satisfies the bounds. -/
theorem adoption_activity_date_invariants_witness :
    ((0 : ℤ) ∈ generate_activity_dates (generate_adoption_dates cust_adv fw_soc2_i 0 0).1
        (generate_adoption_dates cust_adv fw_soc2_i 0 0).2 1 act_oracle_zero) ∧
    ((generate_adoption_dates cust_adv fw_soc2_i 0 0).1 ≤ 0 ∧
      (0 : ℤ) ≤ (generate_adoption_dates cust_adv fw_soc2_i 0 0).2 + 90) := by
  have hmem : (0 : ℤ) ∈ generate_activity_dates
      (generate_adoption_dates cust_adv fw_soc2_i 0 0).1
      (generate_adoption_dates cust_adv fw_soc2_i 0 0).2 1 act_oracle_zero := by
    simp only [generate_activity_dates]
    refine (List.mergeSort_perm _ _).mem_iff.mpr ?_
    refine List.mem_map.mpr ⟨0, by simp, ?_⟩
    simp [generate_adoption_dates, cust_adv, fw_soc2_i, act_oracle_zero, phase_offset,
      choiceD, randintZ]
  exact ⟨hmem, (adoption_activity_date_invariants cust_adv fw_soc2_i 0 0 1
    act_oracle_zero).2.1 0 hmem⟩

end PhantomSec
